import Mathlib

/-!
Verification of the WhatsApp appointment scheduler (flow orchestrator in
`crew.py`, calendar conflict/event engine in `google_calendar_helper.py`).

The Python code is shallowly embedded:
* An aware Python `datetime` becomes `PyDateTime`: wall-clock seconds since
  0000-01-01 00:00 (proleptic Gregorian) plus the attached UTC offset in
  seconds.  Python compares aware datetimes by their UTC instants, which is
  `PyDateTime.instant`.
* The `zoneinfo` database for the working timezone (Asia/Jerusalem) is an
  external input, so the offset it assigns to a naive wall-clock time is an
  arbitrary parameter `isrW : Int → Int` (offset, in seconds, chosen when a
  naive datetime is localized with `replace(tzinfo=ISRAEL_TZ)`), and the
  offset at a given UTC instant used by `astimezone` is a parameter
  `isrI : Int → Int`.
* `datetime.strptime` / `datetime.fromisoformat` / `datetime.isoformat` are
  modelled character-by-character on the formats the code handles, including
  CPython's lenient `%m`/`%d`/`%H`/`%M` directives (1 or 2 digits).
* Calls to the external Google Calendar API are inputs: the events-list query
  is an `Except Unit (List RawEvent)` (`.error` = the query raised) and the
  insert call outcome is an `InsertOutcome`.  Raised exceptions that the code
  catches are modelled with `Option`/`Except`.
-/

/-! ## Proleptic Gregorian calendar arithmetic -/

def isLeap (y : Nat) : Bool := y % 4 = 0 && (y % 100 ≠ 0 || y % 400 = 0)

def daysInMonth (y m : Nat) : Nat :=
  if m = 2 then (if isLeap y then 29 else 28)
  else if m = 4 ∨ m = 6 ∨ m = 9 ∨ m = 11 then 30
  else 31

def daysInYear (y : Nat) : Nat := if isLeap y then 366 else 365

/-- Days in years `0, 1, …, y-1` (proleptic Gregorian, year 0 is a leap year). -/
def yearsBefore : Nat → Nat
  | 0 => 0
  | y + 1 => yearsBefore y + daysInYear y

/-- Days in months `1, …, m` of year `y`. -/
def monthStart (y : Nat) : Nat → Nat
  | 0 => 0
  | m + 1 => monthStart y m + daysInMonth y (m + 1)

/-- Day index of the civil date `(y, m, d)` counted from 0000-01-01. -/
def dayNumber (y m d : Nat) : Nat := yearsBefore y + monthStart y (m - 1) + (d - 1)

/-- Find the year containing absolute day `n`, returning the year and the
day-of-year remainder; `fuel` bounds the recursion. -/
def yearLoop : Nat → Nat → Nat → Nat × Nat
  | 0, y, n => (y, n)
  | fuel + 1, y, n =>
    if n < daysInYear y then (y, n) else yearLoop fuel (y + 1) (n - daysInYear y)

/-- Find the month containing day-of-year `n` (0-based) of year `y`. -/
def monthLoop (y : Nat) : Nat → Nat → Nat → Nat × Nat
  | 0, m, n => (m, n)
  | fuel + 1, m, n =>
    if n < daysInMonth y m then (m, n) else monthLoop y fuel (m + 1) (n - daysInMonth y m)

/-- Civil date `(year, month, day)` of absolute day `n`. -/
def daysToCivil (n : Nat) : Nat × Nat × Nat :=
  let p := yearLoop (n + 1) 0 n
  let q := monthLoop p.1 12 1 p.2
  (p.1, q.1, q.2 + 1)

/-! ## Aware datetimes -/

/-- A timezone-aware Python `datetime`: wall-clock seconds since
0000-01-01 00:00 together with the attached UTC offset in seconds. -/
structure PyDateTime where
  wall : Int
  off : Int
deriving DecidableEq, Repr

/-- The UTC instant: Python compares aware datetimes by this value. -/
def PyDateTime.instant (d : PyDateTime) : Int := d.wall - d.off

/-- Python `d + timedelta(minutes=m)` on a working-timezone datetime (the
only shape `create_event` adds to): `timedelta` arithmetic shifts the
wall-clock fields and keeps the `tzinfo`, so the `ZoneInfo` offset is
re-derived at the NEW wall time — across a DST transition of the working
timezone the instant does not move by exactly `60 * m` seconds. -/
def addMinutes (isrW : Int → Int) (d : PyDateTime) (m : Int) : PyDateTime :=
  { wall := d.wall + 60 * m, off := isrW (d.wall + 60 * m) }

/-- Python `d.astimezone(tz)` where `offAt` gives the target zone's offset (seconds)
at a UTC instant: the instant is preserved, the wall clock is re-expressed. -/
def astz (offAt : Int → Int) (d : PyDateTime) : PyDateTime :=
  { wall := d.instant + offAt d.instant, off := offAt d.instant }

/-! ## Digit rendering and lexing -/

def dchar (n : Nat) : Char := Char.ofNat (48 + n)

def digitVal (c : Char) : Nat := c.toNat - 48

def isDig (c : Char) : Bool := 48 ≤ c.toNat && c.toNat ≤ 57

def pad2 (n : Nat) : String := String.mk [dchar (n / 10), dchar (n % 10)]

def pad4 (n : Nat) : String :=
  String.mk [dchar (n / 1000), dchar (n / 100 % 10), dchar (n / 10 % 10), dchar (n % 10)]

/-- Python `d.strftime('%H:%M')`: render the wall-clock hour and minute. -/
def fmtHM (d : PyDateTime) : String :=
  let s := (d.wall % 86400).toNat
  pad2 (s / 3600) ++ ":" ++ pad2 (s % 3600 / 60)

/-- Exactly two digits. -/
def parse2 : List Char → Option (Nat × List Char)
  | c1 :: c2 :: rest =>
    if isDig c1 && isDig c2 then some (10 * digitVal c1 + digitVal c2, rest) else none
  | _ => none

/-- Exactly four digits (CPython's `%Y` directive). -/
def parse4 : List Char → Option (Nat × List Char)
  | c1 :: c2 :: c3 :: c4 :: rest =>
    if isDig c1 && isDig c2 && isDig c3 && isDig c4 then
      some (1000 * digitVal c1 + 100 * digitVal c2 + 10 * digitVal c3 + digitVal c4, rest)
    else none
  | _ => none

def expectCh (ch : Char) : List Char → Option (List Char)
  | c :: rest => if c = ch then some rest else none
  | [] => none

/-- CPython `%m` directive: regex alternation `1[0-2]|0[1-9]|[1-9]`. -/
def parseMonthLen : List Char → Option (Nat × List Char)
  | '1' :: c :: rest =>
    if 48 ≤ c.toNat ∧ c.toNat ≤ 50 then some (10 + digitVal c, rest) else some (1, c :: rest)
  | '0' :: c :: rest => if 49 ≤ c.toNat ∧ c.toNat ≤ 57 then some (digitVal c, rest) else none
  | c :: rest => if 49 ≤ c.toNat ∧ c.toNat ≤ 57 then some (digitVal c, rest) else none
  | [] => none

/-- CPython `%d` directive: regex alternation `3[01]|[12]\d|0[1-9]|[1-9]`. -/
def parseDayLen : List Char → Option (Nat × List Char)
  | '3' :: c :: rest =>
    if c = '0' ∨ c = '1' then some (30 + digitVal c, rest) else some (3, c :: rest)
  | '0' :: c :: rest => if 49 ≤ c.toNat ∧ c.toNat ≤ 57 then some (digitVal c, rest) else none
  | c :: c2 :: rest =>
    if (c = '1' ∨ c = '2') && isDig c2 then some (10 * digitVal c + digitVal c2, rest)
    else if 49 ≤ c.toNat ∧ c.toNat ≤ 57 then some (digitVal c, c2 :: rest)
    else none
  | [c] => if 49 ≤ c.toNat ∧ c.toNat ≤ 57 then some (digitVal c, []) else none
  | [] => none

/-- CPython `%H` directive: regex alternation `2[0-3]|[0-1]\d|\d`. -/
def parseHourLen : List Char → Option (Nat × List Char)
  | '2' :: c :: rest =>
    if 48 ≤ c.toNat ∧ c.toNat ≤ 51 then some (20 + digitVal c, rest) else some (2, c :: rest)
  | c :: c2 :: rest =>
    if (c = '0' ∨ c = '1') && isDig c2 then some (10 * digitVal c + digitVal c2, rest)
    else if isDig c then some (digitVal c, c2 :: rest)
    else none
  | [c] => if isDig c then some (digitVal c, []) else none
  | [] => none

/-- CPython `%M` directive: regex alternation `[0-5]\d|\d`. -/
def parseMinLen : List Char → Option (Nat × List Char)
  | c :: c2 :: rest =>
    if (48 ≤ c.toNat ∧ c.toNat ≤ 53) && isDig c2 then some (10 * digitVal c + digitVal c2, rest)
    else if isDig c then some (digitVal c, c2 :: rest)
    else none
  | [c] => if isDig c then some (digitVal c, []) else none
  | [] => none

/-! ## `fromisoformat` (RFC 3339 subset emitted by the provider) -/

/-- The date part `YYYY-MM-DD`, validated as `datetime` construction does
(`MINYEAR = 1`, day bounded by the month length). -/
def dateFields (l : List Char) : Option (Nat × Nat × Nat × List Char) :=
  match parse4 l with
  | none => none
  | some (y, l) =>
    match expectCh '-' l with
    | none => none
    | some l =>
      match parse2 l with
      | none => none
      | some (m, l) =>
        match expectCh '-' l with
        | none => none
        | some l =>
          match parse2 l with
          | none => none
          | some (d, l) =>
            if 1 ≤ y ∧ 1 ≤ m ∧ m ≤ 12 ∧ 1 ≤ d ∧ d ≤ daysInMonth y m then
              some (y, m, d, l)
            else none

/-- The time-of-day part `HH:MM[:SS]`, in seconds. -/
def parseTod (l : List Char) : Option (Nat × List Char) :=
  match parse2 l with
  | none => none
  | some (h, l) =>
    match expectCh ':' l with
    | none => none
    | some l =>
      match parse2 l with
      | none => none
      | some (mi, l) =>
        if h < 24 ∧ mi < 60 then
          match l with
          | c :: l2 =>
            if c = ':' then
              match parse2 l2 with
              | none => none
              | some (s, l3) => if s < 60 then some (3600 * h + 60 * mi + s, l3) else none
            else some (3600 * h + 60 * mi, c :: l2)
          | [] => some (3600 * h + 60 * mi, [])
        else none

/-- A UTC-offset magnitude `HH:MM`, in seconds. -/
def parseOffMag (l : List Char) : Option (Int × List Char) :=
  match parse2 l with
  | none => none
  | some (oh, l) =>
    match expectCh ':' l with
    | none => none
    | some l =>
      match parse2 l with
      | none => none
      | some (om, l) =>
        if oh < 24 ∧ om < 60 then some ((3600 * oh + 60 * om : Nat), l) else none

def parseOffset : List Char → Option (Int × List Char)
  | c :: l =>
    if c = '+' then parseOffMag l
    else if c = '-' then
      match parseOffMag l with
      | none => none
      | some (o, l2) => some (-o, l2)
    else none
  | [] => none

/-- Python `datetime.fromisoformat` on the forms the provider emits: a bare date,
or date `T` time with an optional explicit offset.  Returns the wall-clock
seconds and the explicit offset when one is present (`none` = naive). -/
def fromiso (l : List Char) : Option (Int × Option Int) :=
  match dateFields l with
  | none => none
  | some (y, m, d, rest) =>
    match rest with
    | [] => some ((86400 * dayNumber y m d : Nat), none)
    | c :: l2 =>
      if c = 'T' then
        match parseTod l2 with
        | none => none
        | some (tod, l3) =>
          match l3 with
          | [] => some ((86400 * dayNumber y m d + tod : Nat), none)
          | _ =>
            match parseOffset l3 with
            | none => none
            | some (off, l4) =>
              if l4 = [] then some ((86400 * dayNumber y m d + tod : Nat), some off) else none
      else none

/-! ## `strptime` with the code's two format strings -/

/-- Python `datetime.strptime(s, "%Y-%m-%d")` (the all-day fallback in
`_parse_event_datetime`), returning the absolute day number. -/
def strptimeDateOnly (l : List Char) : Option Nat :=
  match parse4 l with
  | none => none
  | some (y, l) =>
    match expectCh '-' l with
    | none => none
    | some l =>
      match parseMonthLen l with
      | none => none
      | some (m, l) =>
        match expectCh '-' l with
        | none => none
        | some l =>
          match parseDayLen l with
          | none => none
          | some (d, l) =>
            if l = [] ∧ 1 ≤ y ∧ d ≤ daysInMonth y m then some (dayNumber y m d) else none

/-- Python `datetime.strptime(s, "%Y-%m-%d %H:%M")` (used by `_parse_datetime`),
returning the absolute day number and the minute of the day. -/
def strptimeYmdHM (l : List Char) : Option (Nat × Nat) :=
  match parse4 l with
  | none => none
  | some (y, l) =>
    match expectCh '-' l with
    | none => none
    | some l =>
      match parseMonthLen l with
      | none => none
      | some (m, l) =>
        match expectCh '-' l with
        | none => none
        | some l =>
          match parseDayLen l with
          | none => none
          | some (d, l) =>
            match expectCh ' ' l with
            | none => none
            | some l =>
              match parseHourLen l with
              | none => none
              | some (h, l) =>
                match expectCh ':' l with
                | none => none
                | some l =>
                  match parseMinLen l with
                  | none => none
                  | some (mi, l) =>
                    if l = [] ∧ 1 ≤ y ∧ d ≤ daysInMonth y m then
                      some (dayNumber y m d, 60 * h + mi)
                    else none

/-! ## The DateTime Normalizer (`_parse_datetime`, `_parse_event_datetime`,
`isoformat`) -/

/-- Model of `GoogleCalendarHelper._parse_datetime(date_str, time_str)`: combines the
two strings with a space, parses with `"%Y-%m-%d %H:%M"`, and tags the naive
result with the working timezone.  `none` models the raised
`ValueError("Invalid date/time format: …")`. -/
def parse_datetime (isrW : Int → Int) (date_str time_str : String) : Option PyDateTime :=
  match strptimeYmdHM (date_str ++ " " ++ time_str).data with
  | some (dn, mo) =>
    let w : Int := 86400 * (dn : Int) + 60 * (mo : Int)
    some { wall := w, off := isrW w }
  | none => none

/-- The `dt_string.endswith('Z')` → `dt_string[:-1] + '+00:00'` rewrite at the
top of `_parse_event_datetime`. -/
def stripZ (l : List Char) : List Char :=
  if l.getLast? = some 'Z' then l.dropLast ++ ('+' :: '0' :: '0' :: ':' :: '0' :: '0' :: []) else l

/-- Model of `GoogleCalendarHelper._parse_event_datetime(dt_string)`: rewrite a `Z`
suffix, try `fromisoformat` (attaching the working timezone when the result
is naive), and fall back to `strptime("%Y-%m-%d")` localized to the working
timezone; `none` models an escaping `ValueError`. -/
def parse_event_datetime (isrW : Int → Int) (s : String) : Option PyDateTime :=
  let l := stripZ s.data
  match fromiso l with
  | some (w, some off) => some { wall := w, off := off }
  | some (w, none) => some { wall := w, off := isrW w }
  | none =>
    match strptimeDateOnly l with
    | some dn => some { wall := 86400 * (dn : Int), off := isrW (86400 * (dn : Int)) }
    | none => none

def offChars (off : Int) : List Char :=
  let a := off.natAbs
  (if 0 ≤ off then '+' else '-') :: ((pad2 (a / 3600)).data ++ (':' :: (pad2 (a % 3600 / 60)).data))

/-- Python `datetime.isoformat()` of an aware datetime:
`YYYY-MM-DDTHH:MM:SS±HH:MM` (zero microseconds, whole-minute offset). -/
def isoChars (d : PyDateTime) : List Char :=
  let days := (d.wall / 86400).toNat
  let tod := (d.wall % 86400).toNat
  let c := daysToCivil days
  (pad4 c.1).data ++ ('-' :: ((pad2 c.2.1).data ++ ('-' :: ((pad2 c.2.2).data ++
    ('T' :: ((pad2 (tod / 3600)).data ++ (':' :: ((pad2 (tod % 3600 / 60)).data ++
    (':' :: ((pad2 (tod % 60)).data ++ offChars d.off))))))))))

def isoformat (d : PyDateTime) : String := String.mk (isoChars d)

/-! ## The Conflict Engine (`_check_time_conflict`) -/

/-- One event returned by the provider's list query.  `startRaw`/`endRaw` hold
`event['start'].get('dateTime', event['start'].get('date'))` (and likewise for
the end); `none` models a missing value, whose use raises in the Python code. -/
structure RawEvent where
  summary : Option String
  startRaw : Option String
  endRaw : Option String
deriving DecidableEq, Repr

/-- The dict `_check_time_conflict` returns on a conflict. -/
structure ConflictInfo where
  summary : String
  start_time : String
  end_time : String
deriving DecidableEq, Repr

def parseField (isrW : Int → Int) : Option String → Option PyDateTime
  | none => none
  | some s => parse_event_datetime isrW s

/-- The `for event in events` loop of `_check_time_conflict`.  An unparsable
boundary raises (`.error`), aborting the loop; an overlapping event
(`start < event_end and end > event_start`, compared as instants) returns the
conflict details with times converted to the working timezone. -/
def conflictScan (isrW isrI : Int → Int) (st en : PyDateTime) :
    List RawEvent → Except Unit (Option ConflictInfo)
  | [] => .ok none
  | ev :: rest =>
    match parseField isrW ev.startRaw, parseField isrW ev.endRaw with
    | some es, some ee =>
      if st.instant < ee.instant ∧ es.instant < en.instant then
        .ok (some { summary := ev.summary.getD "Untitled",
                    start_time := fmtHM (astz isrI es),
                    end_time := fmtHM (astz isrI ee) })
      else conflictScan isrW isrI st en rest
    | _, _ => .error ()

/-- Model of `GoogleCalendarHelper._check_time_conflict(start, end)`, with the
provider's list query supplied as `q` (`.error` = the query raised).  Any
exception inside the `try` block yields `None` — the fail-open policy. -/
def check_time_conflict (isrW isrI : Int → Int) (q : Except Unit (List RawEvent))
    (st en : PyDateTime) : Option ConflictInfo :=
  match q with
  | .error _ => none
  | .ok events =>
    match conflictScan isrW isrI st en events with
    | .error _ => none
    | .ok r => r

/-! ## The Event Writer (`create_event`) -/

/-- Outcome of `events().insert(...).execute()`: success with link and id, a
`googleapiclient` `HttpError`, or any other exception. -/
inductive InsertOutcome where
  | ok (htmlLink : Option String) (id : Option String)
  | httpError (detail : String)
  | otherError (detail : String)
deriving DecidableEq, Repr

/-- The external environment `create_event` runs against. -/
structure CalendarEnv where
  serviceConfigured : Bool
  queryResult : Except Unit (List RawEvent)
  insertResult : InsertOutcome

/-- The event body submitted to the provider (summary, description, ISO
start/end tagged with the working timezone, fixed reminder policy from
`config/settings.py`: no default reminders, popup 30 min, email 1440 min). -/
structure EventBody where
  summary : String
  description : String
  startDateTime : String
  endDateTime : String
  timeZone : String
  remindersUseDefault : Bool
  reminderPopupMinutes : Nat
  reminderEmailMinutes : Nat
deriving DecidableEq, Repr

/-- The dict `create_event` returns. -/
structure CreateResult where
  success : Bool
  message : String
  event_link : Option String
  event_id : Option String
deriving DecidableEq, Repr

/-- Result of `create_event` together with the insert call it made, if any. -/
structure CreateOutcome where
  result : CreateResult
  insertCall : Option EventBody
deriving DecidableEq, Repr

def notConfiguredMsg (language : String) : String :=
  if language = "hebrew" then
    "❌ שירות גוגל קלנדר לא מוגדר. אנא הגדר את קובץ האישורים."
  else
    "❌ Google Calendar service not configured. Please set up credentials file."

def conflictMsg (language date time : String) : String :=
  if language = "hebrew" then
    "⚠️ המשבצת תפוסה!\n📅 תאריך: " ++ date ++ "\n🕐 שעה: " ++ time ++
      "\n❌ הזמן הזה כבר תפוס\n\nאנא בחר זמן אחר."
  else
    "⚠️ Time slot is occupied!\n📅 Date: " ++ date ++ "\n🕐 Time: " ++ time ++
      "\n❌ This time is already booked\n\nPlease choose another time."

def successMsg (language date time : String) (duration : Int) (title : String) : String :=
  if language = "hebrew" then
    "✅ הפגישה נקבעה בהצלחה!\n📅 תאריך: " ++ date ++ "\n🕐 שעה: " ++ time ++
      "\n⏱️ משך: " ++ toString duration ++ " דקות\n📝 נושא: " ++ title
  else
    "✅ Appointment scheduled successfully!\n📅 Date: " ++ date ++ "\n🕐 Time: " ++ time ++
      "\n⏱️ Duration: " ++ toString duration ++ " minutes\n📝 Title: " ++ title

def httpErrorMsg (language detail : String) : String :=
  if language = "hebrew" then "❌ שגיאה בקביעת הפגישה: " ++ detail
  else "❌ Error scheduling appointment: " ++ detail

def unexpectedMsg (language detail : String) : String :=
  if language = "hebrew" then "❌ שגיאה לא צפויה: " ++ detail
  else "❌ Unexpected error: " ++ detail

/-- Modelled detail text of the `ValueError` raised by `_parse_datetime`
(the code formats `f"Invalid date/time format: {str(e)}"`, where the suffix
is CPython's `strptime` message). -/
def invalidDateTimeDetail : String := "Invalid date/time format: unparsable date/time"

/-- The event dict `create_event` builds and submits: summary, description,
ISO start/end tagged with the working timezone, and the fixed reminder policy
from `config/settings.py` (no default reminders, popup 30 min before, email
1440 min before). -/
def eventBody (title notes : String) (start_datetime end_datetime : PyDateTime) : EventBody :=
  { summary := title, description := notes,
    startDateTime := isoformat start_datetime,
    endDateTime := isoformat end_datetime,
    timeZone := "Asia/Jerusalem",
    remindersUseDefault := false,
    reminderPopupMinutes := 30, reminderEmailMinutes := 1440 }

/-- Model of `GoogleCalendarHelper.create_event(title, date, time, duration, notes,
language)`.  `date` and `time` are the strings as rendered into the message
templates and into `_parse_datetime`'s combined f-string (a Python `None`
argument renders as `"None"`, see `pyStr`).  The `ValueError` of
`_parse_datetime` is caught by the final `except Exception` handler, and an
insert failure by the `HttpError`/`Exception` handlers; no exception escapes. -/
def create_event (isrW isrI : Int → Int) (env : CalendarEnv) (title date time : String)
    (duration : Int) (notes language : String) : CreateOutcome :=
  if env.serviceConfigured = false then
    { result := { success := false, message := notConfiguredMsg language,
                  event_link := none, event_id := none },
      insertCall := none }
  else
    match parse_datetime isrW date time with
    | none =>
      { result := { success := false, message := unexpectedMsg language invalidDateTimeDetail,
                    event_link := none, event_id := none },
        insertCall := none }
    | some start_datetime =>
      match check_time_conflict isrW isrI env.queryResult start_datetime
          (addMinutes isrW start_datetime duration) with
      | some _ =>
        { result := { success := false, message := conflictMsg language date time,
                      event_link := none, event_id := none },
          insertCall := none }
      | none =>
        match env.insertResult with
        | .ok link id =>
          { result := { success := true, message := successMsg language date time duration title,
                        event_link := link, event_id := id },
            insertCall := some (eventBody title notes start_datetime
              (addMinutes isrW start_datetime duration)) }
        | .httpError detail =>
          { result := { success := false, message := httpErrorMsg language detail,
                        event_link := none, event_id := none },
            insertCall := some (eventBody title notes start_datetime
              (addMinutes isrW start_datetime duration)) }
        | .otherError detail =>
          { result := { success := false, message := unexpectedMsg language detail,
                        event_link := none, event_id := none },
            insertCall := some (eventBody title notes start_datetime
              (addMinutes isrW start_datetime duration)) }

/-! ## The Flow Orchestrator (`crew.py`) -/

/-- Python's `str.upper()` (ASCII range, which covers the category tokens). -/
def pyUpper (s : String) : String := String.mk (s.data.map Char.toUpper)

def isPrefixB : List Char → List Char → Bool
  | [], _ => true
  | _ :: _, [] => false
  | a :: as, b :: bs => a = b && isPrefixB as bs

def containsList (pat : List Char) : List Char → Bool
  | [] => pat.isEmpty
  | c :: rest => isPrefixB pat (c :: rest) || containsList pat rest

/-- Python's `pat in s` substring test. -/
def strContains (s pat : String) : Bool := containsList pat.data s.data

/-- The dict produced by `AppointmentFlow._parse_json` on the classifier
output, restricted to the two keys `route_message` reads; an unparsable
output is the empty dict (both fields `none`). -/
structure ClassDict where
  categoryVal : Option String
  languageVal : Option String

/-- The dict produced by `_parse_json` on the extractor output, restricted to
the keys `create_calendar_event` reads. -/
structure EventDict where
  titleVal : Option String
  dateVal : Option String
  timeVal : Option String
  durationVal : Option Int
  notesVal : Option String

/-- Line `self.state.category = data.get("category", "UNRELATED").upper()`. -/
def routeCategory (d : ClassDict) : String := pyUpper (d.categoryVal.getD "UNRELATED")

/-- Line `self.state.language = data.get("language", "english")`. -/
def routeLanguage (d : ClassDict) : String := d.languageVal.getD "english"

/-- Model of `AppointmentFlow.select_path`: substring routing with APPOINTMENT checked
before GENERAL. -/
def select_path (category : String) : String :=
  if strContains category "APPOINTMENT" then "appointment"
  else if strContains category "GENERAL" then "general"
  else "unrelated"

/-- Modelled from the spec: the repository's `config/messages.yaml` catalog is
not under `src/`.  Per §6 it is keyed by `(outcome, language)` for the
outcomes `extraction_failed` / `unrelated` / service-unavailable with the two
languages `hebrew` and `english`; a Python dict lookup for any other language
key raises `KeyError`, modelled by `none`. -/
def messages_config (outcome language : String) : Option String :=
  if language = "hebrew" then some (outcome ++ " (hebrew)")
  else if language = "english" then some (outcome ++ " (english)")
  else none

/-- Python f-string rendering of a value that may be `None`. -/
def pyStr : Option String → String
  | some s => s
  | none => "None"

/-- One `AppointmentFlow` invocation after the external stages ran:
`classDict` is the parsed classifier output, `calendarData` the parsed
extractor output (`none` = falsy dict, i.e. extraction failed), `generalAnswer`
the raw general-agent text.  `.error` models an exception escaping the flow
(no response produced). -/
def run_flow (isrW isrI : Int → Int) (env : CalendarEnv) (classDict : ClassDict)
    (calendarData : Option EventDict) (generalAnswer : String) : Except Unit String :=
  if select_path (routeCategory classDict) = "appointment" then
    match calendarData with
    | none =>
      match messages_config "extraction_failed" (routeLanguage classDict) with
      | some m => .ok m
      | none => .error ()
    | some ed =>
      .ok (create_event isrW isrI env (ed.titleVal.getD "Appointment")
        (pyStr ed.dateVal) (pyStr ed.timeVal) (ed.durationVal.getD 60)
        (ed.notesVal.getD "") (routeLanguage classDict)).result.message
  else if select_path (routeCategory classDict) = "general" then .ok generalAnswer
  else
    match messages_config "unrelated" (routeLanguage classDict) with
    | some m => .ok m
    | none => .error ()

/-! ## Concrete instances used by witnesses and counterexamples -/

/-- A constant +02:00 offset function (Israel standard time, no DST). -/
def i0 : Int → Int := fun _ => 7200

/-- An existing booked event 0002-03-04 09:30–10:30 (+02:00). -/
def evStandup : RawEvent :=
  { summary := some "Standup", startRaw := some "0002-03-04T09:30:00+02:00",
    endRaw := some "0002-03-04T10:30:00+02:00" }

/-- A configured environment whose calendar holds `evStandup`. -/
def envBusy : CalendarEnv :=
  { serviceConfigured := true, queryResult := .ok [evStandup],
    insertResult := .ok (some "link") (some "id") }

/-- A configured environment with an empty calendar and a succeeding insert. -/
def envFree : CalendarEnv :=
  { serviceConfigured := true, queryResult := .ok [],
    insertResult := .ok (some "link") (some "id") }

/-- A configured environment whose list query raises. -/
def envQueryBoom : CalendarEnv :=
  { serviceConfigured := true, queryResult := .error (),
    insertResult := .ok (some "link") (some "id") }

/-- The offset-function constraint under which ISO formatting is exact:
whole minutes, magnitude below 24 hours (every real `zoneinfo` offset the
provider hands back satisfies this). -/
def offsetOK (o : Int) : Prop := o % 60 = 0 ∧ o.natAbs < 86400

/-! ## Helper lemmas: strings and substring containment -/

theorem length_empty_eq : String.length "" = 0 := rfl

theorem ne_empty_of_length_pos (s : String) (h : 0 < s.length) : s ≠ "" := by
  intro he
  rw [he] at h
  exact absurd h (by decide)

theorem containsList_nil (l : List Char) : containsList [] l = true := by
  cases l with
  | nil => rfl
  | cons c rest => rfl

theorem isPrefixB_self_append (l t : List Char) : isPrefixB l (l ++ t) = true := by
  induction l with
  | nil => rfl
  | cons a as ih => simp [isPrefixB, ih]

theorem containsList_self_append (pat t : List Char) : containsList pat (pat ++ t) = true := by
  cases pat with
  | nil => exact containsList_nil t
  | cons c rest =>
    show (isPrefixB (c :: rest) ((c :: rest) ++ t) || containsList (c :: rest) (rest ++ t)) = true
    rw [isPrefixB_self_append]
    rfl

theorem containsList_append_left (pat pre s : List Char) (h : containsList pat s = true) :
    containsList pat (pre ++ s) = true := by
  induction pre with
  | nil => exact h
  | cons c rest ih =>
    show (isPrefixB pat (c :: (rest ++ s)) || containsList pat (rest ++ s)) = true
    rw [ih]
    simp

theorem strContains_parts (s p : String) (a b : List Char)
    (h : s.data = a ++ (p.data ++ b)) : strContains s p = true := by
  unfold strContains
  rw [h]
  exact containsList_append_left _ _ _ (containsList_self_append _ _)

/-! ## Helper lemmas: the localized messages -/

theorem notConfiguredMsg_ne_empty (language : String) : notConfiguredMsg language ≠ "" := by
  unfold notConfiguredMsg
  split <;> decide

theorem conflictMsg_ne_empty (language date time : String) :
    conflictMsg language date time ≠ "" := by
  apply ne_empty_of_length_pos
  unfold conflictMsg
  split
  · simp only [String.length_append]
    have h : 0 < String.length "⚠️ המשבצת תפוסה!\n📅 תאריך: " := by decide
    omega
  · simp only [String.length_append]
    have h : 0 < String.length "⚠️ Time slot is occupied!\n📅 Date: " := by decide
    omega

theorem successMsg_ne_empty (language date time : String) (duration : Int) (title : String) :
    successMsg language date time duration title ≠ "" := by
  apply ne_empty_of_length_pos
  unfold successMsg
  split
  · simp only [String.length_append]
    have h : 0 < String.length "✅ הפגישה נקבעה בהצלחה!\n📅 תאריך: " := by decide
    omega
  · simp only [String.length_append]
    have h : 0 < String.length "✅ Appointment scheduled successfully!\n📅 Date: " := by decide
    omega

theorem httpErrorMsg_ne_empty (language detail : String) : httpErrorMsg language detail ≠ "" := by
  apply ne_empty_of_length_pos
  unfold httpErrorMsg
  split
  · simp only [String.length_append]
    have h : 0 < String.length "❌ שגיאה בקביעת הפגישה: " := by decide
    omega
  · simp only [String.length_append]
    have h : 0 < String.length "❌ Error scheduling appointment: " := by decide
    omega

theorem unexpectedMsg_ne_empty (language detail : String) : unexpectedMsg language detail ≠ "" := by
  apply ne_empty_of_length_pos
  unfold unexpectedMsg
  split
  · simp only [String.length_append]
    have h : 0 < String.length "❌ שגיאה לא צפויה: " := by decide
    omega
  · simp only [String.length_append]
    have h : 0 < String.length "❌ Unexpected error: " := by decide
    omega

theorem messages_config_ne_empty (outcome language m : String)
    (h : messages_config outcome language = some m) : m ≠ "" := by
  unfold messages_config at h
  split at h
  · cases h
    apply ne_empty_of_length_pos
    simp only [String.length_append]
    have h2 : 0 < String.length " (hebrew)" := by decide
    omega
  · split at h
    · cases h
      apply ne_empty_of_length_pos
      simp only [String.length_append]
      have h2 : 0 < String.length " (english)" := by decide
      omega
    · cases h

theorem notConfiguredMsg_lang (language : String) (h : language ≠ "hebrew") :
    notConfiguredMsg language = notConfiguredMsg "english" := by
  unfold notConfiguredMsg
  rw [if_neg h, if_neg (by decide)]

theorem conflictMsg_lang (language date time : String) (h : language ≠ "hebrew") :
    conflictMsg language date time = conflictMsg "english" date time := by
  unfold conflictMsg
  rw [if_neg h, if_neg (by decide)]

theorem successMsg_lang (language date time : String) (duration : Int) (title : String)
    (h : language ≠ "hebrew") :
    successMsg language date time duration title = successMsg "english" date time duration title := by
  unfold successMsg
  rw [if_neg h, if_neg (by decide)]

theorem httpErrorMsg_lang (language detail : String) (h : language ≠ "hebrew") :
    httpErrorMsg language detail = httpErrorMsg "english" detail := by
  unfold httpErrorMsg
  rw [if_neg h, if_neg (by decide)]

theorem unexpectedMsg_lang (language detail : String) (h : language ≠ "hebrew") :
    unexpectedMsg language detail = unexpectedMsg "english" detail := by
  unfold unexpectedMsg
  rw [if_neg h, if_neg (by decide)]

theorem conflictMsg_contains_date (language date time : String) :
    strContains (conflictMsg language date time) date = true := by
  unfold conflictMsg
  split
  · exact strContains_parts _ _ ("⚠️ המשבצת תפוסה!\n📅 תאריך: ").data
      (("\n🕐 שעה: " ++ time ++ "\n❌ הזמן הזה כבר תפוס\n\nאנא בחר זמן אחר.").data)
      (by simp [String.data_append, List.append_assoc])
  · exact strContains_parts _ _ ("⚠️ Time slot is occupied!\n📅 Date: ").data
      (("\n🕐 Time: " ++ time ++ "\n❌ This time is already booked\n\nPlease choose another time.").data)
      (by simp [String.data_append, List.append_assoc])

theorem conflictMsg_contains_time (language date time : String) :
    strContains (conflictMsg language date time) time = true := by
  unfold conflictMsg
  split
  · exact strContains_parts _ _
      ("⚠️ המשבצת תפוסה!\n📅 תאריך: " ++ date ++ "\n🕐 שעה: ").data
      ("\n❌ הזמן הזה כבר תפוס\n\nאנא בחר זמן אחר.").data
      (by simp [String.data_append, List.append_assoc])
  · exact strContains_parts _ _
      ("⚠️ Time slot is occupied!\n📅 Date: " ++ date ++ "\n🕐 Time: ").data
      ("\n❌ This time is already booked\n\nPlease choose another time.").data
      (by simp [String.data_append, List.append_assoc])

/-! ## Claim C10 -/

/-- C10: for every language argument that is not exactly the string "hebrew"
(including "Hebrew", "english", or any other value), `create_event` behaves
exactly as with language "english" — every message it can return
(service-not-configured, conflict, success, API error, unexpected error) is
the English variant, and being a total function it never fails on message
selection. -/
theorem create_event_nonhebrew_is_english (isrW isrI : Int → Int) (env : CalendarEnv)
    (title date time : String) (duration : Int) (notes language : String)
    (h : language ≠ "hebrew") :
    create_event isrW isrI env title date time duration notes language =
      create_event isrW isrI env title date time duration notes "english" := by
  unfold create_event
  simp only [notConfiguredMsg_lang, conflictMsg_lang, successMsg_lang, httpErrorMsg_lang,
    unexpectedMsg_lang, h, ne_eq, not_false_iff]

/-- C10 witness: language "Hebrew" (capitalized) yields the English messages. -/
theorem create_event_nonhebrew_is_english_witness :
    create_event i0 i0 envFree "T" "0002-03-04" "10:00" 60 "" "Hebrew" =
      create_event i0 i0 envFree "T" "0002-03-04" "10:00" 60 "" "english" :=
  create_event_nonhebrew_is_english i0 i0 envFree "T" "0002-03-04" "10:00" 60 "" "Hebrew"
    (by decide)

/-! ## Claim C2 -/

/-- C2: if any step of the conflict check fails — the calendar list query
raises (`q = .error ()`), or the event loop raises because a returned event's
boundaries cannot be parsed (`conflictScan … = .error ()`) — then
`_check_time_conflict` returns `None` (no conflict), never an error: the
engine fails open. -/
theorem conflict_check_fail_open (isrW isrI : Int → Int) (q : Except Unit (List RawEvent))
    (st en : PyDateTime)
    (h : q = .error () ∨ ∃ evs, q = .ok evs ∧ conflictScan isrW isrI st en evs = .error ()) :
    check_time_conflict isrW isrI q st en = none := by
  rcases h with h | ⟨evs, hq, hscan⟩
  · rw [h]; rfl
  · rw [hq]
    simp only [check_time_conflict, hscan]

/-- C2 witness: a raised list query yields `None`. -/
theorem conflict_check_fail_open_witness :
    check_time_conflict i0 i0 (.error ()) { wall := 68551200, off := 7200 }
      { wall := 68554800, off := 7200 } = none :=
  conflict_check_fail_open i0 i0 _ _ _ (Or.inl rfl)

/-! ## Claim C9 (corrected) -/

theorem parse_datetime_off (isrW : Int → Int) (ds ts : String) (st : PyDateTime)
    (h : parse_datetime isrW ds ts = some st) : st.off = isrW st.wall := by
  unfold parse_datetime at h
  split at h
  · dsimp only at h
    cases h
    rfl
  · cases h

/-- C9 counterexample: the Event Writer accepts duration 0 without any
validation — the booking succeeds and the insert call is made — while the
proposed end instant equals (does not exceed) the start instant, refuting
"end > start holds for every duration value the Event Writer accepts". -/
theorem duration_zero_accepted :
    (create_event i0 i0 envFree "T" "0002-03-04" "10:00" 0 "" "english").result.success = true ∧
    (create_event i0 i0 envFree "T" "0002-03-04" "10:00" 0 "" "english").insertCall ≠ none ∧
    parse_datetime i0 "0002-03-04" "10:00" = some { wall := 68551200, off := 7200 } ∧
    ¬ ({ wall := 68551200, off := 7200 } : PyDateTime).instant <
        (addMinutes i0 { wall := 68551200, off := 7200 } 0).instant :=
  ⟨by decide, by decide, by decide, by decide⟩

/-- C9 (amended): for every proposed event the Event Writer builds (lines
127–128 of `google_calendar_helper.py`), the end's wall clock equals the
start's wall clock plus `durationMinutes`; the end instant equals the start
instant plus `durationMinutes` corrected by the change of the working
timezone's offset across the shift (Python keeps the `ZoneInfo` and
re-derives the offset at the new wall time).  When the offset is unchanged —
no DST transition inside the shift — the end instant is exactly the start
instant plus the duration and, the writer accepting any integer duration
unvalidated, `end > start` holds exactly when the duration is positive, not
for every accepted duration. -/
theorem proposed_interval_arith (isrW : Int → Int) (date time : String) (duration : Int)
    (st : PyDateTime) (hp : parse_datetime isrW date time = some st) :
    (addMinutes isrW st duration).wall = st.wall + 60 * duration ∧
    (addMinutes isrW st duration).instant =
      st.instant + 60 * duration + (isrW st.wall - isrW (st.wall + 60 * duration)) ∧
    (isrW (st.wall + 60 * duration) = isrW st.wall →
      (addMinutes isrW st duration).instant = st.instant + 60 * duration ∧
      (st.instant < (addMinutes isrW st duration).instant ↔ 0 < duration)) := by
  have hoff := parse_datetime_off isrW date time st hp
  unfold addMinutes PyDateTime.instant
  dsimp only
  refine ⟨rfl, by omega, fun heq => ⟨by omega, by omega⟩⟩

/-- C9 witness: a one-hour appointment at 0002-03-04 10:00 under the constant
+02:00 offset function (so no offset change across the shift). -/
theorem proposed_interval_arith_witness :
    (addMinutes i0 { wall := 68551200, off := 7200 } 60).wall =
        ({ wall := 68551200, off := 7200 } : PyDateTime).wall + 60 * 60 ∧
    (addMinutes i0 { wall := 68551200, off := 7200 } 60).instant =
        ({ wall := 68551200, off := 7200 } : PyDateTime).instant + 60 * 60 ∧
    (({ wall := 68551200, off := 7200 } : PyDateTime).instant <
        (addMinutes i0 { wall := 68551200, off := 7200 } 60).instant ↔ (0 : Int) < 60) := by
  have h := proposed_interval_arith i0 "0002-03-04" "10:00" 60
    { wall := 68551200, off := 7200 } (by decide)
  exact ⟨h.1, (h.2.2 rfl).1, (h.2.2 rfl).2⟩

/-! ## Claim C5 -/

/-- C5: whenever the Conflict Engine reports a conflict for the proposed
interval, `create_event` returns success = false with the localized conflict
message, which names the requested slot's date and time and prompts for
another time, and no insert call is made — the calendar is left unchanged. -/
theorem conflict_blocks_booking (isrW isrI : Int → Int) (env : CalendarEnv)
    (title date time : String) (duration : Int) (notes language : String)
    (st : PyDateTime)
    (hs : env.serviceConfigured = true)
    (hp : parse_datetime isrW date time = some st)
    (hc : check_time_conflict isrW isrI env.queryResult st (addMinutes isrW st duration) ≠ none) :
    (create_event isrW isrI env title date time duration notes language).result.success = false ∧
    (create_event isrW isrI env title date time duration notes language).insertCall = none ∧
    (create_event isrW isrI env title date time duration notes language).result.message =
      conflictMsg language date time ∧
    strContains (create_event isrW isrI env title date time duration notes language).result.message
      date = true ∧
    strContains (create_event isrW isrI env title date time duration notes language).result.message
      time = true := by
  obtain ⟨c, hc'⟩ := Option.ne_none_iff_exists'.mp hc
  have key : create_event isrW isrI env title date time duration notes language =
      { result := { success := false, message := conflictMsg language date time,
                    event_link := none, event_id := none }, insertCall := none } := by
    unfold create_event
    simp only [hs, Bool.true_eq_false, if_false, hp, hc']
  rw [key]
  exact ⟨rfl, rfl, rfl, conflictMsg_contains_date _ _ _, conflictMsg_contains_time _ _ _⟩

/-- C5 witness: booking 0002-03-04 10:00–11:00 against a calendar holding
0002-03-04 09:30–10:30 is refused without an insert. -/
theorem conflict_blocks_booking_witness :
    (create_event i0 i0 envBusy "T" "0002-03-04" "10:00" 60 "" "english").result.success = false ∧
    (create_event i0 i0 envBusy "T" "0002-03-04" "10:00" 60 "" "english").insertCall = none ∧
    (create_event i0 i0 envBusy "T" "0002-03-04" "10:00" 60 "" "english").result.message =
      conflictMsg "english" "0002-03-04" "10:00" ∧
    strContains (create_event i0 i0 envBusy "T" "0002-03-04" "10:00" 60 "" "english").result.message
      "0002-03-04" = true ∧
    strContains (create_event i0 i0 envBusy "T" "0002-03-04" "10:00" 60 "" "english").result.message
      "10:00" = true :=
  conflict_blocks_booking i0 i0 envBusy "T" "0002-03-04" "10:00" 60 "" "english"
    { wall := 68551200, off := 7200 } rfl (by decide) (by decide)

/-! ## Claim C1 -/

theorem conflictScan_ne_error (isrW isrI : Int → Int) (st en : PyDateTime) :
    ∀ evs : List RawEvent,
      (∀ ev ∈ evs, (parseField isrW ev.startRaw).isSome ∧ (parseField isrW ev.endRaw).isSome) →
      conflictScan isrW isrI st en evs ≠ .error ()
  | [], _ => by simp [conflictScan]
  | ev :: rest, hp => by
    obtain ⟨h1, h2⟩ := hp ev (List.mem_cons_self ev rest)
    obtain ⟨es, hes⟩ := Option.isSome_iff_exists.mp h1
    obtain ⟨ee, hee⟩ := Option.isSome_iff_exists.mp h2
    have ih := conflictScan_ne_error isrW isrI st en rest
      (fun e he => hp e (List.mem_cons_of_mem ev he))
    simp only [conflictScan, hes, hee]
    split
    · simp
    · exact ih

theorem conflictScan_some_iff (isrW isrI : Int → Int) (st en : PyDateTime) :
    ∀ evs : List RawEvent,
      (∀ ev ∈ evs, (parseField isrW ev.startRaw).isSome ∧ (parseField isrW ev.endRaw).isSome) →
      ((∃ c, conflictScan isrW isrI st en evs = .ok (some c)) ↔
        ∃ ev ∈ evs, ∃ es ee, parseField isrW ev.startRaw = some es ∧
          parseField isrW ev.endRaw = some ee ∧
          st.instant < ee.instant ∧ es.instant < en.instant)
  | [], _ => by simp [conflictScan]
  | ev :: rest, hp => by
    obtain ⟨h1, h2⟩ := hp ev (List.mem_cons_self ev rest)
    obtain ⟨es, hes⟩ := Option.isSome_iff_exists.mp h1
    obtain ⟨ee, hee⟩ := Option.isSome_iff_exists.mp h2
    have ih := conflictScan_some_iff isrW isrI st en rest
      (fun e he => hp e (List.mem_cons_of_mem ev he))
    simp only [conflictScan, hes, hee]
    by_cases hov : st.instant < ee.instant ∧ es.instant < en.instant
    · rw [if_pos hov]
      constructor
      · intro _
        exact ⟨ev, List.mem_cons_self ev rest, es, ee, hes, hee, hov⟩
      · intro _
        exact ⟨_, rfl⟩
    · rw [if_neg hov]
      rw [ih]
      constructor
      · rintro ⟨e, he, es', ee', hs', he', hov'⟩
        exact ⟨e, List.mem_cons_of_mem ev he, es', ee', hs', he', hov'⟩
      · rintro ⟨e, he, es', ee', hs', he', hov'⟩
        rcases List.mem_cons.mp he with rfl | he2
        · rw [hes] at hs'
          rw [hee] at he'
          cases hs'
          cases he'
          exact absurd hov' hov
        · exact ⟨e, he2, es', ee', hs', he', hov'⟩

/-- C1: with the calendar query returning `evs` and every returned event's
boundaries parseable, `_check_time_conflict` reports a conflict exactly when
some event `[eventStart, eventEnd)` satisfies `start < eventEnd ∧
end > eventStart` (compared as instants).  In particular intervals that merely
touch — the proposed end equal to an event's start or vice versa — are never
reported as a conflict, since both inequalities are strict. -/
theorem conflict_iff_overlap (isrW isrI : Int → Int) (st en : PyDateTime) (evs : List RawEvent)
    (hp : ∀ ev ∈ evs, (parseField isrW ev.startRaw).isSome ∧ (parseField isrW ev.endRaw).isSome) :
    (check_time_conflict isrW isrI (.ok evs) st en).isSome = true ↔
      ∃ ev ∈ evs, ∃ es ee, parseField isrW ev.startRaw = some es ∧
        parseField isrW ev.endRaw = some ee ∧
        st.instant < ee.instant ∧ es.instant < en.instant := by
  rw [← conflictScan_some_iff isrW isrI st en evs hp]
  simp only [check_time_conflict]
  cases hscan : conflictScan isrW isrI st en evs with
  | error u =>
    cases u
    exact absurd hscan (conflictScan_ne_error isrW isrI st en evs hp)
  | ok r =>
    simp only [Option.isSome_iff_exists]
    constructor
    · rintro ⟨c, rfl⟩
      exact ⟨c, rfl⟩
    · rintro ⟨c, hc⟩
      cases hc
      exact ⟨c, rfl⟩

/-- C1 witness: the proposed slot 0002-03-04 10:00–11:00 (+02:00) conflicts
with the booked event 09:30–10:30 in `envBusy`'s calendar. -/
theorem conflict_iff_overlap_witness :
    (check_time_conflict i0 i0 (.ok [evStandup]) { wall := 68551200, off := 7200 }
      { wall := 68554800, off := 7200 }).isSome = true :=
  (conflict_iff_overlap i0 i0 { wall := 68551200, off := 7200 }
      { wall := 68554800, off := 7200 } [evStandup] (by decide)).mpr
    ⟨evStandup, List.mem_cons_self evStandup [],
      { wall := 68549400, off := 7200 }, { wall := 68553000, off := 7200 },
      by decide, by decide, by decide, by decide⟩

/-! ## Claim C4 -/

theorem run_flow_unrelated_path (isrW isrI : Int → Int) (env : CalendarEnv) (d : ClassDict)
    (cd : Option EventDict) (gen m : String)
    (hpath : select_path (routeCategory d) = "unrelated")
    (hm : messages_config "unrelated" (routeLanguage d) = some m) :
    run_flow isrW isrI env d cd gen = .ok m := by
  unfold run_flow
  rw [if_neg (by rw [hpath]; decide), if_neg (by rw [hpath]; decide), hm]

/-- C4: routing is decided on the upper-cased category token by substring
containment, APPOINTMENT before GENERAL: containing "APPOINTMENT" selects the
appointment path; otherwise containing "GENERAL" selects the general path;
anything else — including the "UNRELATED" default substituted when the
classifier output is unparsable (no category key) — selects the unrelated
path, whose response is the localized unrelated message.  Since
`route_message` upper-cases the token first, the containment test is
insensitive to the case of the classifier's output. -/
theorem routing_by_substring (d : ClassDict) :
    (strContains (routeCategory d) "APPOINTMENT" = true →
      select_path (routeCategory d) = "appointment") ∧
    (strContains (routeCategory d) "APPOINTMENT" = false →
      strContains (routeCategory d) "GENERAL" = true →
      select_path (routeCategory d) = "general") ∧
    (strContains (routeCategory d) "APPOINTMENT" = false →
      strContains (routeCategory d) "GENERAL" = false →
      select_path (routeCategory d) = "unrelated") ∧
    (d.categoryVal = none → select_path (routeCategory d) = "unrelated") ∧
    (∀ (isrW isrI : Int → Int) (env : CalendarEnv) (cd : Option EventDict) (gen : String),
      select_path (routeCategory d) = "unrelated" →
      routeLanguage d = "hebrew" ∨ routeLanguage d = "english" →
      ∃ m, messages_config "unrelated" (routeLanguage d) = some m ∧
        run_flow isrW isrI env d cd gen = .ok m) := by
  refine ⟨?_, ?_, ?_, ?_, ?_⟩
  · intro h
    unfold select_path
    rw [h]
    rfl
  · intro h1 h2
    unfold select_path
    rw [h1, h2]
    rfl
  · intro h1 h2
    unfold select_path
    rw [h1, h2]
    rfl
  · intro hc
    have h1 : routeCategory d = "UNRELATED" := by
      rw [routeCategory, hc]
      decide
    rw [h1]
    decide
  · intro isrW isrI env cd gen hpath hl
    rcases hl with hl | hl
    · refine ⟨"unrelated (hebrew)", ?_, ?_⟩
      · rw [hl]
        decide
      · exact run_flow_unrelated_path isrW isrI env d cd gen _ hpath (by rw [hl]; decide)
    · refine ⟨"unrelated (english)", ?_, ?_⟩
      · rw [hl]
        decide
      · exact run_flow_unrelated_path isrW isrI env d cd gen _ hpath (by rw [hl]; decide)

/-- C4 witness: a lower-case "appointment" token routes to the appointment
path, and an unparsable classification (no category key) routes to the
unrelated path with the localized unrelated message. -/
theorem routing_by_substring_witness :
    select_path (routeCategory { categoryVal := some "appointment", languageVal := none }) =
      "appointment" ∧
    select_path (routeCategory { categoryVal := none, languageVal := none }) = "unrelated" ∧
    ∃ m, messages_config "unrelated"
          (routeLanguage { categoryVal := none, languageVal := none }) = some m ∧
        run_flow i0 i0 envFree { categoryVal := none, languageVal := none } none "" = .ok m :=
  ⟨(routing_by_substring { categoryVal := some "appointment", languageVal := none }).1 (by decide),
   (routing_by_substring { categoryVal := none, languageVal := none }).2.2.2.1 rfl,
   (routing_by_substring { categoryVal := none, languageVal := none }).2.2.2.2
     i0 i0 envFree none ""
     ((routing_by_substring { categoryVal := none, languageVal := none }).2.2.2.1 rfl)
     (Or.inr rfl)⟩

/-! ## Claim C3 (corrected) -/

theorem create_event_message_ne_empty (isrW isrI : Int → Int) (env : CalendarEnv)
    (title date time : String) (duration : Int) (notes language : String) :
    (create_event isrW isrI env title date time duration notes language).result.message ≠ "" := by
  unfold create_event
  split
  · exact notConfiguredMsg_ne_empty _
  · split
    · exact unexpectedMsg_ne_empty _ _
    · split
      · exact conflictMsg_ne_empty _ _ _
      · split
        · exact successMsg_ne_empty _ _ _ _ _
        · exact httpErrorMsg_ne_empty _ _
        · exact unexpectedMsg_ne_empty _ _

/-- C3 counterexample: a classification output with category "weather" and
language "french" drives the flow to the unrelated handler, whose catalog
lookup `MESSAGES_CONFIG['responses']['unrelated']['french']` raises
`KeyError` out of the flow — the invocation terminates with no response,
refuting "every classification output (any category and any language string)
yields exactly one non-empty response". -/
theorem flow_no_response_on_unknown_language :
    run_flow i0 i0 envFree { categoryVal := some "weather", languageVal := some "french" }
      none "" = .error () := by rfl

/-- C3 (amended): for every classification output whose language token is one
of the catalog's languages ("hebrew" or "english") and every extraction
output, the flow terminates with exactly one response, and that response is
non-empty provided the general-answer stage's raw output is non-empty (on the
general path the response is that output verbatim). -/
theorem flow_single_nonempty_response (isrW isrI : Int → Int) (env : CalendarEnv)
    (d : ClassDict) (cd : Option EventDict) (gen : String)
    (hl : routeLanguage d = "hebrew" ∨ routeLanguage d = "english")
    (hg : gen ≠ "") :
    ∃ r, run_flow isrW isrI env d cd gen = .ok r ∧ r ≠ "" := by
  unfold run_flow
  by_cases h1 : select_path (routeCategory d) = "appointment"
  · rw [if_pos h1]
    cases cd with
    | none =>
      have hm : ∃ m, messages_config "extraction_failed" (routeLanguage d) = some m := by
        rcases hl with hl | hl <;> rw [hl] <;> exact ⟨_, rfl⟩
      obtain ⟨m, hm⟩ := hm
      rw [hm]
      exact ⟨m, rfl, messages_config_ne_empty _ _ _ hm⟩
    | some ed =>
      exact ⟨_, rfl, create_event_message_ne_empty _ _ _ _ _ _ _ _ _⟩
  · rw [if_neg h1]
    by_cases h2 : select_path (routeCategory d) = "general"
    · rw [if_pos h2]
      exact ⟨gen, rfl, hg⟩
    · rw [if_neg h2]
      have hm : ∃ m, messages_config "unrelated" (routeLanguage d) = some m := by
        rcases hl with hl | hl <;> rw [hl] <;> exact ⟨_, rfl⟩
      obtain ⟨m, hm⟩ := hm
      rw [hm]
      exact ⟨m, rfl, messages_config_ne_empty _ _ _ hm⟩

/-- C3 witness: an English appointment request against a free calendar gets
exactly one non-empty response. -/
theorem flow_single_nonempty_response_witness :
    ∃ r, run_flow i0 i0 envFree
        { categoryVal := some "APPOINTMENT", languageVal := some "english" }
        (some { titleVal := some "T", dateVal := some "0002-03-04", timeVal := some "10:00",
                durationVal := some 60, notesVal := none })
        "hello" = .ok r ∧ r ≠ "" :=
  flow_single_nonempty_response i0 i0 envFree
    { categoryVal := some "APPOINTMENT", languageVal := some "english" }
    (some { titleVal := some "T", dateVal := some "0002-03-04", timeVal := some "10:00",
            durationVal := some 60, notesVal := none })
    "hello" (Or.inr rfl) (by decide)

/-! ## Claim C6 (corrected) -/

/-- C6 counterexample: for the malformed date "2025-13-01" (month 13),
`create_event` does not raise any `InvalidDateTime` condition to its caller:
the `ValueError` from `_parse_datetime` is caught by the final
`except Exception` handler and folded into the generic unexpected-error
result. -/
theorem malformed_datetime_generic_path :
    create_event i0 i0 envFree "T" "2025-13-01" "10:00" 60 "" "english" =
      { result := { success := false,
                    message := unexpectedMsg "english" invalidDateTimeDetail,
                    event_link := none, event_id := none },
        insertCall := none } := by decide

/-- C6 (amended): malformed date or time arguments make `_parse_datetime`
raise a distinct `ValueError("Invalid date/time format: …")`, but
`create_event` catches it in its generic `except Exception` handler and
returns success = false with the unexpected-error message embedding that
detail — the condition is not propagated to the caller, and no insert
occurs. -/
theorem malformed_datetime_caught (isrW isrI : Int → Int) (env : CalendarEnv)
    (title date time : String) (duration : Int) (notes language : String)
    (hs : env.serviceConfigured = true)
    (hp : parse_datetime isrW date time = none) :
    create_event isrW isrI env title date time duration notes language =
      { result := { success := false,
                    message := unexpectedMsg language invalidDateTimeDetail,
                    event_link := none, event_id := none },
        insertCall := none } := by
  unfold create_event
  simp only [hs, Bool.true_eq_false, if_false, hp]

/-- C6 witness: the amended behavior at the malformed time "25:00". -/
theorem malformed_datetime_caught_witness :
    create_event i0 i0 envFree "T" "0002-03-04" "25:00" 60 "" "english" =
      { result := { success := false,
                    message := unexpectedMsg "english" invalidDateTimeDetail,
                    event_link := none, event_id := none },
        insertCall := none } :=
  malformed_datetime_caught i0 i0 envFree "T" "0002-03-04" "25:00" 60 "" "english"
    rfl (by decide)

/-! ## Claim C8 (corrected) -/

theorem conflictScan_ok_some (isrW isrI : Int → Int) (st en : PyDateTime) :
    ∀ (evs : List RawEvent) (c : ConflictInfo),
      conflictScan isrW isrI st en evs = .ok (some c) →
      ∃ ev ∈ evs, ∃ es ee, parseField isrW ev.startRaw = some es ∧
        parseField isrW ev.endRaw = some ee ∧
        st.instant < ee.instant ∧ es.instant < en.instant ∧
        c = { summary := ev.summary.getD "Untitled",
              start_time := fmtHM (astz isrI es), end_time := fmtHM (astz isrI ee) }
  | [], c, h => by
    simp only [conflictScan] at h
    cases h
  | ev :: rest, c, h => by
    rcases hes : parseField isrW ev.startRaw with _ | es <;>
      rcases hee : parseField isrW ev.endRaw with _ | ee <;>
      simp only [conflictScan, hes, hee] at h <;>
      try exact Except.noConfusion h
    split at h
    · cases h
      refine ⟨ev, List.mem_cons_self ev rest, es, ee, hes, hee, ?_, ?_, rfl⟩
      · exact (by assumption : st.instant < ee.instant ∧ es.instant < en.instant).1
      · exact (by assumption : st.instant < ee.instant ∧ es.instant < en.instant).2
    · obtain ⟨e, he, es', ee', h1, h2, h3, h4, h5⟩ := conflictScan_ok_some isrW isrI st en rest c h
      exact ⟨e, List.mem_cons_of_mem ev he, es', ee', h1, h2, h3, h4, h5⟩

/-- C8 (amended): whenever `_check_time_conflict` reports a conflict, the
returned details are the conflicting event's title (defaulting to "Untitled")
and its start/end converted to the working timezone and rendered `HH:MM`;
however, the Event Writer's user-facing conflict message is the fixed
template naming only the requested date and time — the surfaced details are
not included in it. -/
theorem conflict_surfaces_details (isrW isrI : Int → Int) (st en : PyDateTime)
    (evs : List RawEvent) (c : ConflictInfo)
    (hc : check_time_conflict isrW isrI (.ok evs) st en = some c) :
    (∃ ev ∈ evs, ∃ es ee, parseField isrW ev.startRaw = some es ∧
      parseField isrW ev.endRaw = some ee ∧
      st.instant < ee.instant ∧ es.instant < en.instant ∧
      c = { summary := ev.summary.getD "Untitled",
            start_time := fmtHM (astz isrI es), end_time := fmtHM (astz isrI ee) }) ∧
    (∀ (env : CalendarEnv) (title date time : String) (duration : Int)
        (notes language : String) (st' : PyDateTime),
      env.serviceConfigured = true →
      parse_datetime isrW date time = some st' →
      check_time_conflict isrW isrI env.queryResult st' (addMinutes isrW st' duration) ≠ none →
      (create_event isrW isrI env title date time duration notes language).result.message =
        conflictMsg language date time) := by
  constructor
  · have hscan : conflictScan isrW isrI st en evs = .ok (some c) := by
      revert hc
      simp only [check_time_conflict]
      cases hscan2 : conflictScan isrW isrI st en evs with
      | error u => intro hc; dsimp only at hc; cases hc
      | ok r => intro hc; dsimp only at hc; rw [hc]
    exact conflictScan_ok_some isrW isrI st en evs c hscan
  · intro env title date time duration notes language st' hs hp hcc
    obtain ⟨c', hc'⟩ := Option.ne_none_iff_exists'.mp hcc
    unfold create_event
    simp only [hs, Bool.true_eq_false, if_false, hp, hc']

/-- C8 witness: against `evStandup` the engine surfaces title "Standup" and
the working-timezone times 09:30 / 10:30. -/
theorem conflict_surfaces_details_witness :
    ∃ ev ∈ [evStandup], ∃ es ee,
      parseField i0 ev.startRaw = some es ∧ parseField i0 ev.endRaw = some ee ∧
      ({ wall := 68551200, off := 7200 } : PyDateTime).instant < ee.instant ∧
      es.instant < ({ wall := 68554800, off := 7200 } : PyDateTime).instant ∧
      ({ summary := "Standup", start_time := "09:30", end_time := "10:30" } : ConflictInfo) =
        { summary := ev.summary.getD "Untitled",
          start_time := fmtHM (astz i0 es), end_time := fmtHM (astz i0 ee) } :=
  (conflict_surfaces_details i0 i0 { wall := 68551200, off := 7200 }
    { wall := 68554800, off := 7200 } [evStandup]
    { summary := "Standup", start_time := "09:30", end_time := "10:30" } (by decide)).1

/-- C8 counterexample: the conflict found against `evStandup` carries title
"Standup" and times 09:30–10:30, yet the Event Writer's conflict message
contains none of them — it names only the requested slot, refuting "these
details are included in the user-facing conflict message". -/
theorem conflict_details_not_in_message :
    check_time_conflict i0 i0 (.ok [evStandup]) { wall := 68551200, off := 7200 }
        { wall := 68554800, off := 7200 } =
      some { summary := "Standup", start_time := "09:30", end_time := "10:30" } ∧
    strContains
      (create_event i0 i0 envBusy "T" "0002-03-04" "10:00" 60 "" "english").result.message
      "Standup" = false ∧
    strContains
      (create_event i0 i0 envBusy "T" "0002-03-04" "10:00" 60 "" "english").result.message
      "09:30" = false ∧
    strContains
      (create_event i0 i0 envBusy "T" "0002-03-04" "10:00" 60 "" "english").result.message
      "10:30" = false :=
  ⟨by decide, by decide, by decide, by decide⟩

/-! ## Claim C7: digit lemmas -/

theorem isDig_dchar : ∀ n, n < 10 → isDig (dchar n) = true := by decide

theorem digitVal_dchar : ∀ n, n < 10 → digitVal (dchar n) = n := by decide

theorem dchar_ne_Z : ∀ n, n < 10 → ¬ dchar n = 'Z' := by decide

theorem digitVal_lt_ten (c : Char) (h : isDig c = true) : digitVal c < 10 := by
  unfold isDig at h
  unfold digitVal
  rw [Bool.and_eq_true, decide_eq_true_eq, decide_eq_true_eq] at h
  omega

theorem parse2_pad2 (n : Nat) (h : n < 100) (rest : List Char) :
    parse2 ((pad2 n).data ++ rest) = some (n, rest) := by
  have h1 : n / 10 < 10 := by omega
  have h2 : n % 10 < 10 := by omega
  show parse2 (dchar (n / 10) :: dchar (n % 10) :: rest) = some (n, rest)
  simp only [parse2, isDig_dchar _ h1, isDig_dchar _ h2, Bool.and_self, if_true,
    digitVal_dchar _ h1, digitVal_dchar _ h2]
  rw [show 10 * (n / 10) + n % 10 = n from by omega]

theorem parse4_pad4 (n : Nat) (h : n < 10000) (rest : List Char) :
    parse4 ((pad4 n).data ++ rest) = some (n, rest) := by
  have h1 : n / 1000 < 10 := by omega
  have h2 : n / 100 % 10 < 10 := by omega
  have h3 : n / 10 % 10 < 10 := by omega
  have h4 : n % 10 < 10 := by omega
  show parse4 (dchar (n / 1000) :: dchar (n / 100 % 10) :: dchar (n / 10 % 10) ::
    dchar (n % 10) :: rest) = some (n, rest)
  simp only [parse4, isDig_dchar _ h1, isDig_dchar _ h2, isDig_dchar _ h3, isDig_dchar _ h4,
    Bool.and_self, if_true, digitVal_dchar _ h1, digitVal_dchar _ h2, digitVal_dchar _ h3,
    digitVal_dchar _ h4]
  rw [show 1000 * (n / 1000) + 100 * (n / 100 % 10) + 10 * (n / 10 % 10) + n % 10 = n from
    by omega]

theorem parse2_lt (l : List Char) (n : Nat) (r : List Char) (h : parse2 l = some (n, r)) :
    n < 100 := by
  match l with
  | [] => exact absurd h (by simp [parse2])
  | [c] => exact absurd h (by simp [parse2])
  | c1 :: c2 :: rest =>
    simp only [parse2] at h
    split at h
    · rename_i hd
      rw [Bool.and_eq_true] at hd
      have b1 := digitVal_lt_ten c1 hd.1
      have b2 := digitVal_lt_ten c2 hd.2
      cases h
      omega
    · cases h

theorem parse4_lt (l : List Char) (n : Nat) (r : List Char) (h : parse4 l = some (n, r)) :
    n < 10000 := by
  match l with
  | [] => exact absurd h (by simp [parse4])
  | [c] => exact absurd h (by simp [parse4])
  | [c, c2] => exact absurd h (by simp [parse4])
  | [c, c2, c3] => exact absurd h (by simp [parse4])
  | c1 :: c2 :: c3 :: c4 :: rest =>
    simp only [parse4] at h
    split at h
    · rename_i hd
      rw [Bool.and_eq_true, Bool.and_eq_true, Bool.and_eq_true] at hd
      have b1 := digitVal_lt_ten c1 hd.1.1.1
      have b2 := digitVal_lt_ten c2 hd.1.1.2
      have b3 := digitVal_lt_ten c3 hd.1.2
      have b4 := digitVal_lt_ten c4 hd.2
      cases h
      omega
    · cases h

/-! ## Claim C7: calendar lemmas -/

theorem daysInYear_pos (y : Nat) : 0 < daysInYear y := by
  unfold daysInYear
  split <;> omega

theorem daysInMonth_pos (y m : Nat) : 0 < daysInMonth y m := by
  unfold daysInMonth
  split
  · split <;> omega
  · split <;> omega

theorem yearsBefore_succ (y : Nat) : yearsBefore (y + 1) = yearsBefore y + daysInYear y := rfl

theorem monthStart_succ (y m : Nat) :
    monthStart y (m + 1) = monthStart y m + daysInMonth y (m + 1) := rfl

theorem monthStart_sub_one (y m : Nat) (h : 1 ≤ m) :
    monthStart y m = monthStart y (m - 1) + daysInMonth y m := by
  obtain ⟨k, rfl⟩ : ∃ k, m = k + 1 := ⟨m - 1, by omega⟩
  simp [monthStart_succ]

theorem monthStart_twelve (y : Nat) : monthStart y 12 = daysInYear y := by
  have h : monthStart y 12 =
      monthStart y 0 + daysInMonth y 1 + daysInMonth y 2 + daysInMonth y 3 + daysInMonth y 4 +
      daysInMonth y 5 + daysInMonth y 6 + daysInMonth y 7 + daysInMonth y 8 + daysInMonth y 9 +
      daysInMonth y 10 + daysInMonth y 11 + daysInMonth y 12 := by
    rw [show (12 : Nat) = 11 + 1 from rfl, monthStart_succ]
    rw [show (11 : Nat) = 10 + 1 from rfl, monthStart_succ]
    rw [show (10 : Nat) = 9 + 1 from rfl, monthStart_succ]
    rw [show (9 : Nat) = 8 + 1 from rfl, monthStart_succ]
    rw [show (8 : Nat) = 7 + 1 from rfl, monthStart_succ]
    rw [show (7 : Nat) = 6 + 1 from rfl, monthStart_succ]
    rw [show (6 : Nat) = 5 + 1 from rfl, monthStart_succ]
    rw [show (5 : Nat) = 4 + 1 from rfl, monthStart_succ]
    rw [show (4 : Nat) = 3 + 1 from rfl, monthStart_succ]
    rw [show (3 : Nat) = 2 + 1 from rfl, monthStart_succ]
    rw [show (2 : Nat) = 1 + 1 from rfl, monthStart_succ]
    rw [show (1 : Nat) = 0 + 1 from rfl, monthStart_succ]
  rw [h]
  cases h2 : isLeap y <;>
    simp [daysInMonth, daysInYear, h2, monthStart]

theorem monthStart_mono (y : Nat) {a b : Nat} (h : a ≤ b) :
    monthStart y a ≤ monthStart y b := by
  obtain ⟨k, rfl⟩ := Nat.exists_eq_add_of_le h
  induction k with
  | zero => simp
  | succ k ih =>
    rw [show a + (k + 1) = (a + k) + 1 from rfl, monthStart_succ]
    omega

theorem yearsBefore_mono {a b : Nat} (h : a ≤ b) : yearsBefore a ≤ yearsBefore b := by
  obtain ⟨k, rfl⟩ := Nat.exists_eq_add_of_le h
  induction k with
  | zero => simp
  | succ k ih =>
    rw [show a + (k + 1) = (a + k) + 1 from rfl, yearsBefore_succ]
    omega

theorem dayNumber_lt (y m d : Nat) (hm1 : 1 ≤ m) (hm2 : m ≤ 12) (hd1 : 1 ≤ d)
    (hd2 : d ≤ daysInMonth y m) : dayNumber y m d < yearsBefore (y + 1) := by
  unfold dayNumber
  rw [yearsBefore_succ]
  have h1 : monthStart y (m - 1) + daysInMonth y m ≤ daysInYear y := by
    rw [← monthStart_sub_one y m hm1, ← monthStart_twelve y]
    exact monthStart_mono y hm2
  omega

theorem dayNumber_ge (y m d : Nat) (hy : 1 ≤ y) : 366 ≤ dayNumber y m d := by
  unfold dayNumber
  have h1 : yearsBefore 1 ≤ yearsBefore y := yearsBefore_mono hy
  have h2 : yearsBefore 1 = 366 := by decide
  omega

theorem yearLoop_inv : ∀ fuel y n : Nat,
    yearsBefore (yearLoop fuel y n).1 + (yearLoop fuel y n).2 = yearsBefore y + n
  | 0, y, n => rfl
  | fuel + 1, y, n => by
    simp only [yearLoop]
    split
    · rfl
    · rename_i hge
      rw [yearLoop_inv fuel (y + 1) (n - daysInYear y), yearsBefore_succ]
      omega

theorem yearLoop_dom : ∀ fuel y n : Nat, n < fuel →
    (yearLoop fuel y n).2 < daysInYear (yearLoop fuel y n).1
  | 0, y, n, h => absurd h (by omega)
  | fuel + 1, y, n, h => by
    simp only [yearLoop]
    split
    · assumption
    · rename_i hge
      apply yearLoop_dom fuel (y + 1) (n - daysInYear y)
      have := daysInYear_pos y
      omega

theorem monthLoop_inv (y : Nat) : ∀ fuel m n : Nat, 1 ≤ m →
    monthStart y ((monthLoop y fuel m n).1 - 1) + (monthLoop y fuel m n).2 =
      monthStart y (m - 1) + n ∧ 1 ≤ (monthLoop y fuel m n).1
  | 0, m, n, hm => ⟨rfl, hm⟩
  | fuel + 1, m, n, hm => by
    simp only [monthLoop]
    split
    · exact ⟨rfl, hm⟩
    · rename_i hge
      obtain ⟨ih1, ih2⟩ := monthLoop_inv y fuel (m + 1) (n - daysInMonth y m) (by omega)
      refine ⟨?_, ih2⟩
      rw [ih1, show m + 1 - 1 = m from rfl, monthStart_sub_one y m hm]
      omega

theorem monthLoop_dom (y : Nat) : ∀ fuel m n : Nat, 1 ≤ m →
    monthStart y (m - 1) + n < monthStart y (m - 1 + fuel) →
    (monthLoop y fuel m n).2 < daysInMonth y (monthLoop y fuel m n).1 ∧
      (monthLoop y fuel m n).1 ≤ m - 1 + fuel
  | 0, m, n, hm, hb => by
    exfalso
    rw [Nat.add_zero] at hb
    omega
  | fuel + 1, m, n, hm, hb => by
    simp only [monthLoop]
    split
    · exact ⟨by assumption, by omega⟩
    · rename_i hge
      have hpre : monthStart y (m + 1 - 1) + (n - daysInMonth y m) <
          monthStart y (m + 1 - 1 + fuel) := by
        rw [show m + 1 - 1 = m from rfl, monthStart_sub_one y m hm,
          show m + fuel = m - 1 + (fuel + 1) from by omega]
        omega
      obtain ⟨r1, r2⟩ := monthLoop_dom y fuel (m + 1) (n - daysInMonth y m) (by omega) hpre
      refine ⟨r1, ?_⟩
      rw [show m + 1 - 1 + fuel = m - 1 + (fuel + 1) from by omega] at r2
      exact r2

theorem daysToCivil_spec (n : Nat) (hn : n < yearsBefore 10000) (y m d : Nat)
    (h : daysToCivil n = (y, m, d)) :
    1 ≤ m ∧ m ≤ 12 ∧ 1 ≤ d ∧ d ≤ daysInMonth y m ∧ y ≤ 9999 ∧
      dayNumber y m d = n ∧ (366 ≤ n → 1 ≤ y) := by
  simp only [daysToCivil] at h
  rw [Prod.mk.injEq, Prod.mk.injEq] at h
  obtain ⟨hy, hm, hd⟩ := h
  subst hy
  subst hm
  subst hd
  have hyinv := yearLoop_inv (n + 1) 0 n
  have hydom := yearLoop_dom (n + 1) 0 n (by omega)
  have e0 : yearsBefore 0 = 0 := rfl
  have hpre : monthStart (yearLoop (n + 1) 0 n).1 (1 - 1) + (yearLoop (n + 1) 0 n).2 <
      monthStart (yearLoop (n + 1) 0 n).1 (1 - 1 + 12) := by
    show monthStart (yearLoop (n + 1) 0 n).1 0 + (yearLoop (n + 1) 0 n).2 <
      monthStart (yearLoop (n + 1) 0 n).1 12
    rw [monthStart_twelve]
    have e1 : monthStart (yearLoop (n + 1) 0 n).1 0 = 0 := rfl
    omega
  obtain ⟨hi1, hi2⟩ := monthLoop_inv (yearLoop (n + 1) 0 n).1 12 1 (yearLoop (n + 1) 0 n).2
    (by omega)
  obtain ⟨hj1, hj2⟩ := monthLoop_dom (yearLoop (n + 1) 0 n).1 12 1 (yearLoop (n + 1) 0 n).2
    (by omega) hpre
  have e2 : monthStart (yearLoop (n + 1) 0 n).1 (1 - 1) = 0 := rfl
  refine ⟨by omega, by omega, by omega, by omega, ?_, ?_, ?_⟩
  · by_contra hbig
    have := yearsBefore_mono (show 10000 ≤ (yearLoop (n + 1) 0 n).1 by omega)
    omega
  · unfold dayNumber
    omega
  · intro h366
    by_contra hzero
    have hA : (yearLoop (n + 1) 0 n).1 = 0 := by omega
    rw [hA] at hydom hyinv
    have e3 : daysInYear 0 = 366 := by decide
    omega

/-! ## Claim C7: rendering lemmas -/

theorem expectCh_same (c : Char) (l : List Char) : expectCh c (c :: l) = some l := by
  simp [expectCh]

theorem daysInMonth_le (y m : Nat) : daysInMonth y m ≤ 31 := by
  unfold daysInMonth
  split
  · split <;> omega
  · split <;> omega

theorem dateFields_render (y m d : Nat) (hy1 : 1 ≤ y) (hy2 : y < 10000)
    (hm1 : 1 ≤ m) (hm2 : m ≤ 12) (hd1 : 1 ≤ d) (hd2 : d ≤ daysInMonth y m) (rest : List Char) :
    dateFields ((pad4 y).data ++ ('-' :: ((pad2 m).data ++ ('-' :: ((pad2 d).data ++ rest))))) =
      some (y, m, d, rest) := by
  have hd100 : d < 100 := by
    have := daysInMonth_le y m
    omega
  unfold dateFields
  rw [parse4_pad4 y hy2]
  dsimp only
  rw [expectCh_same]
  dsimp only
  rw [parse2_pad2 m (by omega)]
  dsimp only
  rw [expectCh_same]
  dsimp only
  rw [parse2_pad2 d hd100]
  dsimp only
  rw [if_pos ⟨hy1, hm1, hm2, hd1, hd2⟩]

theorem parseTod_render (tod : Nat) (h : tod < 86400) (rest : List Char) :
    parseTod ((pad2 (tod / 3600)).data ++ (':' :: ((pad2 (tod % 3600 / 60)).data ++
      (':' :: ((pad2 (tod % 60)).data ++ rest))))) = some (tod, rest) := by
  unfold parseTod
  rw [parse2_pad2 (tod / 3600) (by omega)]
  dsimp only
  rw [expectCh_same]
  dsimp only
  rw [parse2_pad2 (tod % 3600 / 60) (by omega)]
  dsimp only
  rw [if_pos (show tod / 3600 < 24 ∧ tod % 3600 / 60 < 60 from by omega)]
  try dsimp only
  try rw [if_pos rfl]
  rw [parse2_pad2 (tod % 60) (by omega)]
  try dsimp only
  rw [if_pos (show tod % 60 < 60 from by omega)]
  rw [show 3600 * (tod / 3600) + 60 * (tod % 3600 / 60) + tod % 60 = tod from by omega]

theorem offChars_cons (off : Int) : offChars off =
    (if 0 ≤ off then '+' else '-') ::
      ((pad2 (off.natAbs / 3600)).data ++ (':' :: (pad2 (off.natAbs % 3600 / 60)).data)) := rfl

theorem parseOffMag_render (a : Nat) (habs : a < 86400) :
    parseOffMag ((pad2 (a / 3600)).data ++ (':' :: (pad2 (a % 3600 / 60)).data)) =
      some (((3600 * (a / 3600) + 60 * (a % 3600 / 60) : Nat) : Int), []) := by
  unfold parseOffMag
  rw [parse2_pad2 (a / 3600) (by omega)]
  dsimp only
  rw [expectCh_same]
  dsimp only
  rw [show (pad2 (a % 3600 / 60)).data = (pad2 (a % 3600 / 60)).data ++ [] from by simp,
    parse2_pad2 (a % 3600 / 60) (by omega)]
  try dsimp only
  rw [if_pos (show a / 3600 < 24 ∧ a % 3600 / 60 < 60 from by omega)]

theorem parseOffset_render (off : Int) (h60 : off % 60 = 0) (habs : off.natAbs < 86400) :
    parseOffset ((if 0 ≤ off then '+' else '-') ::
      ((pad2 (off.natAbs / 3600)).data ++ (':' :: (pad2 (off.natAbs % 3600 / 60)).data))) =
      some (off, []) := by
  by_cases hsign : 0 ≤ off
  · rw [if_pos hsign]
    show parseOffset ('+' :: _) = _
    unfold parseOffset
    dsimp only
    rw [if_pos rfl]
    rw [parseOffMag_render off.natAbs habs]
    rw [show ((3600 * (off.natAbs / 3600) + 60 * (off.natAbs % 3600 / 60) : Nat) : Int) = off
      from by omega]
  · rw [if_neg hsign]
    show parseOffset ('-' :: _) = _
    unfold parseOffset
    dsimp only
    rw [if_neg (show ¬ '-' = '+' from by decide), if_pos rfl]
    rw [parseOffMag_render off.natAbs habs]
    dsimp only
    rw [show -((3600 * (off.natAbs / 3600) + 60 * (off.natAbs % 3600 / 60) : Nat) : Int) = off
      from by omega]

theorem append_pref {tail : List Char} (p : List Char) {l : List Char}
    (h : ∃ q, l = q ++ tail) : ∃ q, p ++ l = q ++ tail := by
  obtain ⟨q, rfl⟩ := h
  exact ⟨p ++ q, by rw [List.append_assoc]⟩

theorem cons_pref {tail : List Char} (c : Char) {l : List Char}
    (h : ∃ q, l = q ++ tail) : ∃ q, c :: l = q ++ tail := by
  obtain ⟨q, rfl⟩ := h
  exact ⟨c :: q, rfl⟩

theorem offChars_ends (off : Int) :
    ∃ q, offChars off =
      q ++ [dchar (off.natAbs % 3600 / 60 / 10), dchar (off.natAbs % 3600 / 60 % 10)] := by
  rw [offChars_cons]
  apply cons_pref
  apply append_pref
  apply cons_pref
  exact ⟨[], rfl⟩

theorem isoChars_ends (d : PyDateTime) :
    ∃ q, isoChars d =
      q ++ [dchar (d.off.natAbs % 3600 / 60 / 10), dchar (d.off.natAbs % 3600 / 60 % 10)] := by
  simp only [isoChars]
  apply append_pref
  apply cons_pref
  apply append_pref
  apply cons_pref
  apply append_pref
  apply cons_pref
  apply append_pref
  apply cons_pref
  apply append_pref
  apply cons_pref
  apply append_pref
  exact offChars_ends d.off

theorem stripZ_isoChars (d : PyDateTime) : stripZ (isoChars d) = isoChars d := by
  obtain ⟨q, hq⟩ := isoChars_ends d
  have hpair : q ++ [dchar (d.off.natAbs % 3600 / 60 / 10),
        dchar (d.off.natAbs % 3600 / 60 % 10)] =
      (q ++ [dchar (d.off.natAbs % 3600 / 60 / 10)]) ++
        [dchar (d.off.natAbs % 3600 / 60 % 10)] := by
    simp
  have h1 : (isoChars d).getLast? = some (dchar (d.off.natAbs % 3600 / 60 % 10)) := by
    rw [hq, hpair, List.getLast?_concat]
  unfold stripZ
  rw [h1, if_neg (fun hcon => dchar_ne_Z _ (by omega) (Option.some.inj hcon))]

theorem fromiso_isoChars (d : PyDateTime)
    (hw1 : 86400 * 366 ≤ d.wall)
    (hw2 : d.wall < 86400 * (yearsBefore 10000 : Int))
    (ho1 : d.off % 60 = 0) (ho2 : d.off.natAbs < 86400) :
    fromiso (isoChars d) = some (d.wall, some d.off) := by
  have hw0 : 0 ≤ d.wall := by omega
  have hw : ((d.wall.toNat : Int)) = d.wall := Int.toNat_of_nonneg hw0
  have hdays : (d.wall / 86400).toNat = d.wall.toNat / 86400 := by omega
  have htod : (d.wall % 86400).toNat = d.wall.toNat % 86400 := by omega
  have hb1 : 366 ≤ d.wall.toNat / 86400 := by omega
  have hb2 : d.wall.toNat / 86400 < yearsBefore 10000 := by omega
  rcases hciv : daysToCivil (d.wall.toNat / 86400) with ⟨y1, m1, d1⟩
  obtain ⟨hm1, hm2, hd1, hd2, hy9999, hdnum, hy366⟩ :=
    daysToCivil_spec (d.wall.toNat / 86400) hb2 y1 m1 d1 hciv
  have hiso : isoChars d =
      (pad4 y1).data ++ ('-' :: ((pad2 m1).data ++ ('-' :: ((pad2 d1).data ++
      ('T' :: ((pad2 (d.wall.toNat % 86400 / 3600)).data ++
      (':' :: ((pad2 (d.wall.toNat % 86400 % 3600 / 60)).data ++
      (':' :: ((pad2 (d.wall.toNat % 86400 % 60)).data ++ offChars d.off)))))))))) := by
    simp only [isoChars, hdays, htod, hciv]
  rw [hiso]
  unfold fromiso
  rw [dateFields_render y1 m1 d1 (hy366 hb1) (by omega) hm1 hm2 hd1 hd2]
  try dsimp only
  rw [if_pos rfl]
  rw [parseTod_render (d.wall.toNat % 86400) (by omega)]
  try dsimp only
  rw [offChars_cons]
  try dsimp only
  rw [parseOffset_render d.off ho1 ho2]
  try dsimp only
  rw [if_pos rfl]
  rw [hdnum]
  rw [show ((86400 * (d.wall.toNat / 86400) + d.wall.toNat % 86400 : Nat) : Int) = d.wall
    from by omega]

theorem reparse_isoformat (isrW : Int → Int) (d : PyDateTime)
    (hw1 : 86400 * 366 ≤ d.wall) (hw2 : d.wall < 86400 * (yearsBefore 10000 : Int))
    (ho1 : d.off % 60 = 0) (ho2 : d.off.natAbs < 86400) :
    parse_event_datetime isrW (isoformat d) = some d := by
  unfold parse_event_datetime
  rw [show (isoformat d).data = isoChars d from rfl]
  rw [stripZ_isoChars]
  dsimp only
  rw [fromiso_isoChars d hw1 hw2 ho1 ho2]

/-! ## Claim C7: inversion lemmas -/

theorem parseTod_bound (l : List Char) (tod : Nat) (r : List Char)
    (h : parseTod l = some (tod, r)) : tod < 86400 := by
  unfold parseTod at h
  split at h
  · cases h
  · split at h
    · cases h
    · split at h
      · cases h
      · split at h
        · rename_i hcond
          split at h
          · split at h
            · split at h
              · cases h
              · split at h
                · cases h
                  omega
                · cases h
            · cases h
              omega
          · cases h
            omega
        · cases h

theorem parseOffMag_bound (l : List Char) (o : Int) (r : List Char)
    (h : parseOffMag l = some (o, r)) : o % 60 = 0 ∧ o.natAbs < 86400 := by
  unfold parseOffMag at h
  split at h
  · cases h
  · split at h
    · cases h
    · split at h
      · cases h
      · split at h
        · rename_i hcond
          cases h
          constructor
          · omega
          · omega
        · cases h

theorem parseOffset_bound (l : List Char) (o : Int) (r : List Char)
    (h : parseOffset l = some (o, r)) : o % 60 = 0 ∧ o.natAbs < 86400 := by
  unfold parseOffset at h
  split at h
  · rename_i c l2
    split at h
    · exact parseOffMag_bound _ _ _ h
    · split at h
      · split at h
        · cases h
        · rename_i p heq
          obtain ⟨h1, h2⟩ := parseOffMag_bound _ _ _ heq
          cases h
          constructor
          · omega
          · omega
      · cases h
  · cases h

theorem dateFields_bound (l : List Char) (y m d : Nat) (r : List Char)
    (h : dateFields l = some (y, m, d, r)) :
    1 ≤ y ∧ y < 10000 ∧ 1 ≤ m ∧ m ≤ 12 ∧ 1 ≤ d ∧ d ≤ daysInMonth y m := by
  unfold dateFields at h
  split at h
  · cases h
  · rename_i p heq4
    split at h
    · cases h
    · split at h
      · cases h
      · split at h
        · cases h
        · split at h
          · cases h
          · split at h
            · rename_i hv
              cases h
              have hy := parse4_lt _ _ _ heq4
              exact ⟨hv.1, hy, hv.2.1, hv.2.2.1, hv.2.2.2.1, hv.2.2.2.2⟩
            · cases h

theorem fromiso_bound (l : List Char) (w : Int) (oo : Option Int)
    (h : fromiso l = some (w, oo)) :
    86400 * 366 ≤ w ∧ w < 86400 * (yearsBefore 10000 : Int) ∧
      ∀ off, oo = some off → off % 60 = 0 ∧ off.natAbs < 86400 := by
  unfold fromiso at h
  split at h
  · cases h
  · rename_i y1 m1 d1 rest1 heqd
    obtain ⟨hb1, hb2, hb3, hb4, hb5, hb6⟩ := dateFields_bound _ _ _ _ _ heqd
    have hlow : 366 ≤ dayNumber y1 m1 d1 := dayNumber_ge _ _ _ hb1
    have hhigh : dayNumber y1 m1 d1 < yearsBefore 10000 := by
      have h1 := dayNumber_lt y1 m1 d1 hb3 hb4 hb5 hb6
      have h2 : yearsBefore (y1 + 1) ≤ yearsBefore 10000 := yearsBefore_mono (by omega)
      omega
    split at h
    · cases h
      refine ⟨by omega, by omega, fun off hoff => by cases hoff⟩
    · split at h
      · split at h
        · cases h
        · rename_i q heqt
          have ht := parseTod_bound _ _ _ heqt
          split at h
          · cases h
            refine ⟨by omega, by omega, fun off hoff => by cases hoff⟩
          · split at h
            · cases h
            · rename_i q2 heqo
              have ho := parseOffset_bound _ _ _ heqo
              split at h
              · cases h
                exact ⟨by omega, by omega, fun off hoff => by cases hoff; exact ho⟩
              · cases h
      · cases h

theorem parseMonthLen_bound (l : List Char) (m : Nat) (r : List Char)
    (h : parseMonthLen l = some (m, r)) : 1 ≤ m ∧ m ≤ 12 := by
  unfold parseMonthLen digitVal at h
  split at h
  · split at h
    · rename_i hc
      cases h
      omega
    · cases h
      omega
  · split at h
    · rename_i hc
      cases h
      omega
    · cases h
  · split at h
    · rename_i hc
      cases h
      omega
    · cases h
  · cases h

theorem parseDayLen_bound (l : List Char) (d : Nat) (r : List Char)
    (h : parseDayLen l = some (d, r)) : 1 ≤ d := by
  unfold parseDayLen digitVal at h
  split at h
  · split at h
    · rename_i hc
      rcases hc with rfl | rfl
      · cases h
        decide
      · cases h
        decide
    · cases h
      omega
  · split at h
    · rename_i hc
      cases h
      omega
    · cases h
  · split at h
    · rename_i hc
      rw [Bool.and_eq_true, decide_eq_true_eq] at hc
      rcases hc.1 with rfl | rfl
      · cases h
        have e : ('1').toNat = 49 := rfl
        omega
      · cases h
        have e : ('2').toNat = 50 := rfl
        omega
    · split at h
      · rename_i hc
        cases h
        omega
      · cases h
  · split at h
    · rename_i hc
      cases h
      omega
    · cases h
  · cases h

theorem parseHourLen_bound (l : List Char) (hh : Nat) (r : List Char)
    (h : parseHourLen l = some (hh, r)) : hh ≤ 23 := by
  unfold parseHourLen digitVal isDig at h
  split at h
  · split at h
    · rename_i hc
      cases h
      omega
    · cases h
      omega
  · split at h
    · rename_i hc
      rw [Bool.and_eq_true, decide_eq_true_eq] at hc
      obtain ⟨hc1, hc2⟩ := hc
      rw [Bool.and_eq_true, decide_eq_true_eq, decide_eq_true_eq] at hc2
      rcases hc1 with rfl | rfl
      · cases h
        have e : ('0').toNat = 48 := rfl
        omega
      · cases h
        have e : ('1').toNat = 49 := rfl
        omega
    · split at h
      · rename_i hc
        rw [Bool.and_eq_true, decide_eq_true_eq, decide_eq_true_eq] at hc
        cases h
        omega
      · cases h
  · split at h
    · rename_i hc
      rw [Bool.and_eq_true, decide_eq_true_eq, decide_eq_true_eq] at hc
      cases h
      omega
    · cases h
  · cases h

theorem parseMinLen_bound (l : List Char) (mi : Nat) (r : List Char)
    (h : parseMinLen l = some (mi, r)) : mi ≤ 59 := by
  unfold parseMinLen digitVal isDig at h
  split at h
  · split at h
    · rename_i hc
      rw [Bool.and_eq_true, decide_eq_true_eq] at hc
      obtain ⟨hc1, hc2⟩ := hc
      rw [Bool.and_eq_true, decide_eq_true_eq, decide_eq_true_eq] at hc2
      cases h
      omega
    · split at h
      · rename_i hc
        rw [Bool.and_eq_true, decide_eq_true_eq, decide_eq_true_eq] at hc
        cases h
        omega
      · cases h
  · split at h
    · rename_i hc
      rw [Bool.and_eq_true, decide_eq_true_eq, decide_eq_true_eq] at hc
      cases h
      omega
    · cases h
  · cases h

theorem strptimeDateOnly_bound (l : List Char) (dn : Nat)
    (h : strptimeDateOnly l = some dn) : 366 ≤ dn ∧ dn < yearsBefore 10000 := by
  unfold strptimeDateOnly at h
  split at h
  · cases h
  · rename_i y l1 heq4
    split at h
    · cases h
    · split at h
      · cases h
      · rename_i m l2 heqm
        split at h
        · cases h
        · split at h
          · cases h
          · rename_i d l3 heqd2
            split at h
            · rename_i hv
              cases h
              have hy4 := parse4_lt _ _ _ heq4
              have hm := parseMonthLen_bound _ _ _ heqm
              have hd := parseDayLen_bound _ _ _ heqd2
              have hlow := dayNumber_ge y m d hv.2.1
              have hlt := dayNumber_lt y m d hm.1 hm.2 hd hv.2.2
              have hmono : yearsBefore (y + 1) ≤ yearsBefore 10000 :=
                yearsBefore_mono (by omega)
              omega
            · cases h

theorem strptimeYmdHM_bound (l : List Char) (dn mo : Nat)
    (h : strptimeYmdHM l = some (dn, mo)) :
    366 ≤ dn ∧ dn < yearsBefore 10000 ∧ mo ≤ 1439 := by
  unfold strptimeYmdHM at h
  split at h
  · cases h
  · rename_i y l1 heq4
    split at h
    · cases h
    · split at h
      · cases h
      · rename_i m l2 heqm
        split at h
        · cases h
        · split at h
          · cases h
          · rename_i d l3 heqd2
            split at h
            · cases h
            · split at h
              · cases h
              · rename_i hh l4 heqh
                split at h
                · cases h
                · split at h
                  · cases h
                  · rename_i mi l5 heqmi
                    split at h
                    · rename_i hv
                      cases h
                      have hy4 := parse4_lt _ _ _ heq4
                      have hm := parseMonthLen_bound _ _ _ heqm
                      have hd := parseDayLen_bound _ _ _ heqd2
                      have hhb := parseHourLen_bound _ _ _ heqh
                      have hmib := parseMinLen_bound _ _ _ heqmi
                      have hlow := dayNumber_ge y m d hv.2.1
                      have hlt := dayNumber_lt y m d hm.1 hm.2 hd hv.2.2
                      have hmono : yearsBefore (y + 1) ≤ yearsBefore 10000 :=
                        yearsBefore_mono (by omega)
                      omega
                    · cases h

theorem parse_event_datetime_bounds (isrW : Int → Int) (hz : ∀ w, offsetOK (isrW w))
    (s : String) (d : PyDateTime) (h : parse_event_datetime isrW s = some d) :
    86400 * 366 ≤ d.wall ∧ d.wall < 86400 * (yearsBefore 10000 : Int) ∧
      d.off % 60 = 0 ∧ d.off.natAbs < 86400 := by
  unfold parse_event_datetime at h
  dsimp only at h
  split at h
  · rename_i w off heq
    have hb := fromiso_bound _ _ _ heq
    cases h
    exact ⟨hb.1, hb.2.1, (hb.2.2 off rfl).1, (hb.2.2 off rfl).2⟩
  · rename_i w heq
    have hb := fromiso_bound _ _ _ heq
    cases h
    have hk := hz w
    exact ⟨hb.1, hb.2.1, hk.1, hk.2⟩
  · split at h
    · rename_i dn heq2
      have hb := strptimeDateOnly_bound _ _ heq2
      cases h
      have hk := hz (86400 * (dn : Int))
      refine ⟨?_, ?_, hk.1, hk.2⟩
      · show 86400 * 366 ≤ 86400 * (dn : Int)
        omega
      · show 86400 * (dn : Int) < 86400 * (yearsBefore 10000 : Int)
        omega
    · cases h

theorem parse_datetime_bounds (isrW : Int → Int) (hz : ∀ w, offsetOK (isrW w))
    (ds ts : String) (d : PyDateTime) (h : parse_datetime isrW ds ts = some d) :
    86400 * 366 ≤ d.wall ∧ d.wall < 86400 * (yearsBefore 10000 : Int) ∧
      d.off % 60 = 0 ∧ d.off.natAbs < 86400 := by
  unfold parse_datetime at h
  split at h
  · rename_i dn mo heq
    have hb := strptimeYmdHM_bound _ _ _ heq
    dsimp only at h
    cases h
    have hk := hz (86400 * (dn : Int) + 60 * (mo : Int))
    refine ⟨?_, ?_, hk.1, hk.2⟩
    · show 86400 * 366 ≤ 86400 * (dn : Int) + 60 * (mo : Int)
      omega
    · show 86400 * (dn : Int) + 60 * (mo : Int) < 86400 * (yearsBefore 10000 : Int)
      omega
  · cases h

/-! ## Claim C7 -/

/-- C7: provider-instant parsing is idempotent under round-trip.  Whenever the
working-timezone offsets are real utcoffsets (whole minutes, below 24 h —
`offsetOK`), any value accepted by `_parse_event_datetime` — a `Z`-suffixed
ISO string, an ISO string with its own offset, or a bare date, the latter two
localized to the working timezone — reparses from its `isoformat` rendering to
the very same datetime (equal wall clock and offset, hence equal instant); and
any valid `(date, time)` pair accepted by `_parse_datetime` likewise survives
ISO reformat and reparse unchanged. -/
theorem provider_instant_roundtrip (isrW : Int → Int) (hz : ∀ w, offsetOK (isrW w)) :
    (∀ (s : String) (d : PyDateTime), parse_event_datetime isrW s = some d →
      parse_event_datetime isrW (isoformat d) = some d) ∧
    (∀ (ds ts : String) (d : PyDateTime), parse_datetime isrW ds ts = some d →
      parse_event_datetime isrW (isoformat d) = some d) := by
  constructor
  · intro s d h
    obtain ⟨h1, h2, h3, h4⟩ := parse_event_datetime_bounds isrW hz s d h
    exact reparse_isoformat isrW d h1 h2 h3 h4
  · intro ds ts d h
    obtain ⟨h1, h2, h3, h4⟩ := parse_datetime_bounds isrW hz ds ts d h
    exact reparse_isoformat isrW d h1 h2 h3 h4

theorem i0_offsetOK : ∀ w, offsetOK (i0 w) := by
  intro w
  constructor
  · show (7200 : Int) % 60 = 0
    decide
  · show (7200 : Int).natAbs < 86400
    decide

/-- C7 witness: a concrete offset-carrying provider string and a concrete
`(date, time)` pair both round-trip through `isoformat` unchanged. -/
theorem provider_instant_roundtrip_witness :
    parse_event_datetime i0 (isoformat { wall := 68549400, off := 7200 }) =
      some { wall := 68549400, off := 7200 } ∧
    parse_event_datetime i0 (isoformat { wall := 68551200, off := 7200 }) =
      some { wall := 68551200, off := 7200 } :=
  ⟨(provider_instant_roundtrip i0 i0_offsetOK).1
      "0002-03-04T09:30:00+02:00" { wall := 68549400, off := 7200 } (by decide),
   (provider_instant_roundtrip i0 i0_offsetOK).2
      "0002-03-04" "10:00" { wall := 68551200, off := 7200 } (by decide)⟩
